import Mathlib

/-!
Verification of the backendcia2025 competition-registration backend.

This file gives a shallow embedding of the parts of the code the claims
are about, and proves or refutes the claims against that embedding:

* `middleware/authenticateToken` (src/unnamed/part_000): the credential
  verifier, together with an abstract model of the jsonwebtoken
  sign/verify primitive (signatures are modelled symbolically: a token
  records the secret it was signed with, whether it is structurally
  well formed, and its embedded expiry timestamp).
* `routes/users.js` POST /user/login: the token the login handler signs.
* The route tables of `routes/cic.js`, `routes/sbc.js`,
  `routes/craft.js`, the teams router (src/unnamed/part_004), the FCEC
  router (src/unnamed/part_005) and the upload server
  (src/unnamed/part_002), recording which routes carry the
  authenticateToken middleware.
* The relational store (teams / members / dosbim / sbc / fcec tables)
  as lists of rows, and the create / delete / verify / reject / list
  handlers of the CIC, SBC and FCEC tracks plus the teams router as
  explicit state-passing functions over that store and over a model of
  the uploads directory (a list of stored file paths).
* The multer filename policies of the track routers and of the /upload
  endpoint of src/unnamed/part_002.
-/

/-! ## Credential verifier (src/unnamed/part_000, routes/users.js) -/

/-- Decoded JWT claims. `POST /user/login` signs `{ id: user.id }`. -/
structure JwtClaims where
  id : Nat
  deriving Repr, DecidableEq

/-- Abstract model of a JSON Web Token: `secret` is the key it was
signed with, `wellFormed` is false for structurally broken tokens, and
`exp` is the embedded expiry timestamp (seconds since epoch), per the
jsonwebtoken library. -/
structure Jwt where
  claims : JwtClaims
  secret : String
  wellFormed : Bool
  exp : Nat
  deriving Repr, DecidableEq

/-- Outcome of `jwt.verify`: success with the decoded claims, a
TokenExpiredError, or any other JsonWebTokenError. -/
inductive VerifyOutcome where
  | ok (claims : JwtClaims)
  | tokenExpiredError
  | jsonWebTokenError
  deriving Repr, DecidableEq

/-- `jwt.verify(token, secret)` at wall-clock time `now` (seconds):
a bad signature or broken structure raises a JsonWebTokenError; a
well-formed, correctly signed token whose `exp` claim is not after
`now` raises a TokenExpiredError; otherwise the claims are returned. -/
def jwtVerify (tok : Jwt) (secret : String) (now : Nat) : VerifyOutcome :=
  if tok.wellFormed = false ∨ tok.secret ≠ secret then .jsonWebTokenError
  else if tok.exp ≤ now then .tokenExpiredError
  else .ok tok.claims

/-- `const JWT_SECRET = process.env.JWT_SECRET || 'backendCIA'`
(src/unnamed/part_000 line 3). The empty string is falsy in JS, so it
also falls back. -/
def JWT_SECRET (env : Option String) : String :=
  match env with
  | none => "backendCIA"
  | some s => if s = "" then "backendCIA" else s

/-- The bearer token extracted from the Authorization header by
`authHeader && authHeader.split(' ')[1]`: either no usable token (header
missing, no second word, or an empty/falsy token) or a token. -/
inductive BearerExtract where
  | noToken
  | token (tok : Jwt)
  deriving Repr, DecidableEq

/-- An HTTP status code together with the `message` field of the JSON
error or success body. -/
abbrev Reply := Nat × String

/-- `authenticateToken` middleware (src/unnamed/part_000 lines 5-23),
wrapping an arbitrary downstream handler over an arbitrary store type
`σ`. The handler receives the decoded claims (`req.user = decoded`).
On the three failure paths the middleware replies directly and the
handler is never invoked, so the store comes back unchanged. -/
def authenticateToken {σ : Type} (extract : BearerExtract)
    (envSecret : Option String) (now : Nat) (store : σ)
    (handler : JwtClaims → σ → Reply × σ) : Reply × σ :=
  match extract with
  | .noToken => ((401, "Authentication token is required"), store)
  | .token tok =>
    match jwtVerify tok (JWT_SECRET envSecret) now with
    | .ok claims => handler claims store
    | .tokenExpiredError => ((401, "Token has expired"), store)
    | .jsonWebTokenError => ((403, "Invalid token"), store)

/-- The token issued by `POST /user/login` (routes/users.js lines
235-237): `jwt.sign({ id: user.id }, 'your-secret-key',
{ expiresIn: '60d' })`. 60 days = 5184000 seconds. -/
def loginToken (userId : Nat) (now : Nat) : Jwt :=
  { claims := { id := userId }
    secret := "your-secret-key"
    wellFormed := true
    exp := now + 5184000 }

/-! ## Route tables: which operations carry authenticateToken -/

/-- One registered Express route: HTTP method, path pattern, and
whether `authenticateToken` appears in its middleware chain. -/
structure Route where
  method : String
  path : String
  authenticated : Bool
  deriving Repr, DecidableEq

/-- The teams router, src/unnamed/part_004. Note that
`PUT /teams/:team_id/verify` (line 104) is registered WITHOUT the
authenticateToken middleware, unlike every other route. -/
def teamsRouterRoutes : List Route :=
  [ { method := "GET", path := "/teams", authenticated := true }
  , { method := "PUT", path := "/teams/:team_id/verify", authenticated := false }
  , { method := "PUT", path := "/teams/update", authenticated := true }
  , { method := "PUT", path := "/teams/:team_id/reject", authenticated := true } ]

/-- routes/cic.js. -/
def cicRouterRoutes : List Route :=
  [ { method := "GET", path := "/teams/cic", authenticated := true }
  , { method := "GET", path := "/teams/cic/:teamId", authenticated := true }
  , { method := "POST", path := "/teams/cic/new", authenticated := true }
  , { method := "PUT", path := "/teams/cic/update", authenticated := true }
  , { method := "DELETE", path := "/teams/cic/delete/:teamId", authenticated := true } ]

/-- routes/sbc.js. -/
def sbcRouterRoutes : List Route :=
  [ { method := "GET", path := "/teams/sbc", authenticated := true }
  , { method := "GET", path := "/teams/sbc/:teamId", authenticated := true }
  , { method := "POST", path := "/teams/sbc/new", authenticated := true }
  , { method := "DELETE", path := "/teams/sbc/delete/:teamId", authenticated := true }
  , { method := "GET", path := "/sbc-participant", authenticated := true } ]

/-- The FCEC router, src/unnamed/part_005. -/
def fcecRouterRoutes : List Route :=
  [ { method := "GET", path := "/teams/fcec", authenticated := true }
  , { method := "GET", path := "/teams/fcec/:teamId", authenticated := true }
  , { method := "POST", path := "/teams/fcec/new", authenticated := true }
  , { method := "DELETE", path := "/teams/fcec/delete/:teamId", authenticated := true }
  , { method := "GET", path := "/fcec-participant", authenticated := true } ]

/-- routes/craft.js. -/
def craftRouterRoutes : List Route :=
  [ { method := "GET", path := "/crafts", authenticated := true }
  , { method := "GET", path := "/crafts/participant/:participant_id", authenticated := true }
  , { method := "GET", path := "/crafts/user/:user_id", authenticated := true }
  , { method := "POST", path := "/crafts/register", authenticated := true }
  , { method := "PUT", path := "/crafts/verify/:participant_id", authenticated := true }
  , { method := "PUT", path := "/crafts/reject/:participant_id", authenticated := true }
  , { method := "PUT", path := "/crafts/edit/:participant_id", authenticated := true }
  , { method := "DELETE", path := "/crafts/delete/:participantId", authenticated := true } ]

/-- All Registration Workflow and Participant Query Service routes
(the public register/login operations of the User collaborator are not
in this list, per the spec). -/
def workflowRoutes : List Route :=
  teamsRouterRoutes ++ cicRouterRoutes ++ sbcRouterRoutes ++
    fcecRouterRoutes ++ craftRouterRoutes

/-- The one unguarded workflow route. -/
def verifyRoute : Route :=
  { method := "PUT", path := "/teams/:team_id/verify", authenticated := false }

/-! ## Relational store -/

/-- A row of the `teams` table. -/
structure Team where
  team_id : Nat
  team_name : String
  institution_name : String
  payment_proof : Option String
  event_id : Nat
  user_id : Nat
  email : Option String
  voucher : Option String
  isVerified : Bool
  isRejected : Bool
  rejectMessage : Option String
  deriving Repr, DecidableEq

/-- A row of the `members` table. `department` is used by the CIC and
FCEC inserts, `nim` by the SBC inserts; the columns the other track
does not set are `none`. `is_leader` is the 0/1 integer the handlers
compare with `=== 1` / `=== 0`. -/
structure Member where
  team_id : Nat
  full_name : String
  department : Option String
  batch : String
  phone_number : String
  line_id : String
  email : String
  ktm : Option String
  active_student_letter : Option String
  photo : Option String
  twibbon_and_poster_link : String
  is_leader : Nat
  nim : Option String
  deriving Repr, DecidableEq

/-- A row of the `dosbim` (advisor) table. -/
structure Dosbim where
  team_id : Nat
  full_name : String
  nip : String
  email : String
  phone_number : String
  photo : Option String
  deriving Repr, DecidableEq

/-- A row of the `sbc` track table. -/
structure SbcRow where
  team_id : Nat
  bridge_name : String
  deriving Repr, DecidableEq

/-- A row of the `fcec` track table. -/
structure FcecRow where
  team_id : Nat
  originality_statement : Option String
  abstract_title : String
  abstract_file : Option String
  abstract_video_link : String
  deriving Repr, DecidableEq

/-- The relational store: one list of rows per table. -/
structure DB where
  teams : List Team
  members : List Member
  dosbim : List Dosbim
  sbc : List SbcRow
  fcec : List FcecRow
  deriving Repr, DecidableEq

/-- `SELECT LAST_INSERT_ID()` after the team INSERT: modelled as one
more than the largest existing team id (auto increment). -/
def freshTeamId (db : DB) : Nat :=
  (db.teams.map Team.team_id).foldr Nat.max 0 + 1

/-! ## Request payloads and uploaded files -/

/-- The `team` sub-object of a create payload. -/
structure TeamInput where
  team_name : String
  institution_name : String
  email : Option String
  deriving Repr, DecidableEq

/-- One leader/member sub-object of a create payload (non-file fields;
the document paths come from `req.files`). -/
structure MemberInput where
  full_name : String
  department : Option String
  batch : String
  phone_number : String
  line_id : String
  email : String
  twibbon_and_poster_link : String
  nim : Option String
  deriving Repr, DecidableEq

/-- `req.files` as saved by multer before the handler runs: an
association of field name to stored path (maxCount is 1 for every
field, so one path per field). -/
abbrev UploadedFiles := List (String × String)

/-- `req.files[field] ? req.files[field][0].path : null`. -/
def filePath (files : UploadedFiles) (field : String) : Option String :=
  (files.find? (fun f => f.1 = field)).map Prod.snd

/-- The stored paths of every file multer saved for the request. -/
def allPaths (files : UploadedFiles) : List String :=
  files.map Prod.snd

/-- The uploads directory: the set of stored file paths, as a list. -/
abbrev Disk := List String

/-- `fs.unlinkSync(file.path)` over every saved file of the request
(the duplicate-name and error branches of the create handlers). -/
def unlinkAll (disk : Disk) (files : UploadedFiles) : Disk :=
  disk.filter (fun p => ¬ p ∈ allPaths files)

/-- Result of a handler that may touch both the store and the disk. -/
structure HandlerResult where
  reply : Reply
  db : DB
  disk : Disk
  deriving Repr, DecidableEq

/-! ## Create payloads -/

/-- Parsed `req.body.data` for `POST /teams/cic/new` and
`POST /teams/fcec/new` (team + leader + members). The handlers reject
a missing/unparsable/incomplete body before touching the store; that
validated parse is modelled by an `Option`. -/
structure CicData where
  team : TeamInput
  leader : MemberInput
  members : List MemberInput
  deriving Repr, DecidableEq

/-- One entry of the `dosbim` array of an SBC create payload. -/
structure DosbimInput where
  full_name : String
  nip : String
  email : String
  phone_number : String
  deriving Repr, DecidableEq

/-- One entry of the `sbc` array of an SBC create payload. -/
structure SbcInput where
  bridge_name : String
  deriving Repr, DecidableEq

/-- Parsed `req.body.data` for `POST /teams/sbc/new`. -/
structure SbcData where
  team : TeamInput
  leader : MemberInput
  members : List MemberInput
  dosbim : List DosbimInput
  sbc : List SbcInput
  deriving Repr, DecidableEq

/-- The `fcec` sub-object of an FCEC create payload (file columns come
from `req.files`). -/
structure FcecInput where
  abstract_title : String
  abstract_video_link : String
  deriving Repr, DecidableEq

/-- Parsed `req.body.data` for `POST /teams/fcec/new`. -/
structure FcecData where
  team : TeamInput
  leader : MemberInput
  members : List MemberInput
  fcec : FcecInput
  deriving Repr, DecidableEq

/-! ## Member row construction -/

/-- A member row as the CIC/FCEC INSERT builds it (department column,
no nim column). -/
def cicMemberRow (tid : Nat) (inp : MemberInput)
    (ktm asl photo : Option String) (lead : Nat) : Member :=
  { team_id := tid
    full_name := inp.full_name
    department := inp.department
    batch := inp.batch
    phone_number := inp.phone_number
    line_id := inp.line_id
    email := inp.email
    ktm := ktm
    active_student_letter := asl
    photo := photo
    twibbon_and_poster_link := inp.twibbon_and_poster_link
    is_leader := lead
    nim := none }

/-- A member row as the SBC INSERT builds it (nim column, no
department column). -/
def sbcMemberRow (tid : Nat) (inp : MemberInput)
    (ktm asl photo : Option String) (lead : Nat) : Member :=
  { team_id := tid
    full_name := inp.full_name
    department := none
    batch := inp.batch
    phone_number := inp.phone_number
    line_id := inp.line_id
    email := inp.email
    ktm := ktm
    active_student_letter := asl
    photo := photo
    twibbon_and_poster_link := inp.twibbon_and_poster_link
    is_leader := lead
    nim := inp.nim }

/-- The `member{i}_ktm` file for the 1-based member index `i`. -/
def memberKtm (files : UploadedFiles) (i : Nat) : Option String :=
  filePath files ("member" ++ toString i ++ "_ktm")

/-- The `member{i}_active_student_letter` file. -/
def memberAsl (files : UploadedFiles) (i : Nat) : Option String :=
  filePath files ("member" ++ toString i ++ "_active_student_letter")

/-- The `member{i}_photo` file. -/
def memberPhoto (files : UploadedFiles) (i : Nat) : Option String :=
  filePath files ("member" ++ toString i ++ "_photo")

/-- Model of JS `String.prototype.trim`: drop leading and trailing
whitespace. (A structural definition is used so that it evaluates
inside the kernel.) -/
def jsTrim (s : String) : String :=
  String.mk (((s.toList.dropWhile Char.isWhitespace).reverse.dropWhile
    Char.isWhitespace).reverse)

/-- The non-leader member rows the CIC create inserts, walking the
`members` array with its index: `if (index === 2 &&
!member.full_name.trim()) return` skips the third entry when its name
is blank; every inserted row has `is_leader = 0`
(routes/cic.js lines 399-433). The Promise.all inserts are modelled in
array order. -/
def cicMemberRows (tid : Nat) (files : UploadedFiles) :
    Nat → List MemberInput → List Member
  | _, [] => []
  | idx, m :: rest =>
    if idx = 2 ∧ jsTrim m.full_name = "" then
      cicMemberRows tid files (idx + 1) rest
    else
      cicMemberRow tid m (memberKtm files (idx + 1)) (memberAsl files (idx + 1))
          (memberPhoto files (idx + 1)) 0 ::
        cicMemberRows tid files (idx + 1) rest

/-- The non-leader member rows the FCEC create inserts: no skip rule,
`is_leader = 0` (src/unnamed/part_005 lines 360-391). -/
def fcecMemberRows (tid : Nat) (files : UploadedFiles) :
    Nat → List MemberInput → List Member
  | _, [] => []
  | idx, m :: rest =>
    cicMemberRow tid m (memberKtm files (idx + 1)) (memberAsl files (idx + 1))
        (memberPhoto files (idx + 1)) 0 ::
      fcecMemberRows tid files (idx + 1) rest

/-- The non-leader member rows the SBC create inserts: no skip rule,
`is_leader = 0` (routes/sbc.js lines 341-371). -/
def sbcMemberRows (tid : Nat) (files : UploadedFiles) :
    Nat → List MemberInput → List Member
  | _, [] => []
  | idx, m :: rest =>
    sbcMemberRow tid m (memberKtm files (idx + 1)) (memberAsl files (idx + 1))
        (memberPhoto files (idx + 1)) 0 ::
      sbcMemberRows tid files (idx + 1) rest

/-! ## Create handlers -/

/-- Handler of `POST /teams/cic/new` (routes/cic.js lines 287-445),
entered after multer saved the request files to `disk`. A missing or
invalid `req.body.data` (or missing team/leader sub-object) is the
validated-parse `none` case. On a duplicate team name within event 4
the handler unlinks every saved file and replies 400
"Team name already exists"; otherwise it inserts the team row, the
leader row with `is_leader = 1`, and the member rows. -/
def cicCreate (db : DB) (disk : Disk) (userId : Nat)
    (data? : Option CicData) (files : UploadedFiles) : HandlerResult :=
  match data? with
  | none => ⟨(400, "Missing team data"), db, disk⟩
  | some data =>
    if db.teams.any (fun t => t.team_name == data.team.team_name && t.event_id == 4) then
      ⟨(400, "Team name already exists"), db, unlinkAll disk files⟩
    else
      let tid := freshTeamId db
      let teamRow : Team :=
        { team_id := tid
          team_name := data.team.team_name
          institution_name := data.team.institution_name
          payment_proof := filePath files "payment_proof"
          event_id := 4
          user_id := userId
          email := data.team.email
          voucher := filePath files "voucher"
          isVerified := false
          isRejected := false
          rejectMessage := none }
      let leaderRow :=
        cicMemberRow tid data.leader (filePath files "leader_ktm")
          (filePath files "leader_active_student_letter")
          (filePath files "leader_photo") 1
      let db1 :=
        { db with
          teams := db.teams ++ [teamRow]
          members := db.members ++ leaderRow :: cicMemberRows tid files 0 data.members }
      ⟨(201, "Team and members created successfully"), db1, disk⟩

/-- Handler of `POST /teams/fcec/new` (src/unnamed/part_005 lines
281-426): duplicate-name check within event 1 with file unlink, then
team, leader (`is_leader = 1`), members, and the fcec row. -/
def fcecCreate (db : DB) (disk : Disk) (_userId : Nat)
    (data? : Option FcecData) (files : UploadedFiles) : HandlerResult :=
  match data? with
  | none => ⟨(500, "An error occurred"), db, unlinkAll disk files⟩
  | some data =>
    if db.teams.any (fun t => t.team_name == data.team.team_name && t.event_id == 1) then
      ⟨(400, "Team name already exists"), db, unlinkAll disk files⟩
    else
      let tid := freshTeamId db
      let teamRow : Team :=
        { team_id := tid
          team_name := data.team.team_name
          institution_name := data.team.institution_name
          payment_proof := none
          event_id := 1
          user_id := 0
          email := data.team.email
          voucher := none
          isVerified := false
          isRejected := false
          rejectMessage := none }
      let leaderRow :=
        cicMemberRow tid data.leader (filePath files "leader_ktm")
          (filePath files "leader_active_student_letter")
          (filePath files "leader_photo") 1
      let fcecRow : FcecRow :=
        { team_id := tid
          originality_statement := filePath files "originality_statement"
          abstract_title := data.fcec.abstract_title
          abstract_file := filePath files "abstract_file"
          abstract_video_link := data.fcec.abstract_video_link }
      let db1 :=
        { db with
          teams := db.teams ++ [teamRow]
          members := db.members ++ leaderRow :: fcecMemberRows tid files 0 data.members
          fcec := db.fcec ++ [fcecRow] }
      ⟨(201, "Team created successfully"), db1, disk⟩

/-- Handler of `POST /teams/sbc/new` (routes/sbc.js lines 288-426).
There is NO duplicate-team-name check: the handler inserts the team
row for event 3 directly, then the leader (`is_leader = 1`), the
member rows, the dosbim row from `dosbim[0]` and the sbc row from
`sbc[0]`. An empty `dosbim`/`sbc` array makes the corresponding insert
throw after the earlier rows were already written; the catch block
unlinks the saved files and replies 500. -/
def sbcCreate (db : DB) (disk : Disk) (userId : Nat)
    (data? : Option SbcData) (files : UploadedFiles) : HandlerResult :=
  match data? with
  | none => ⟨(500, "An error occurred"), db, unlinkAll disk files⟩
  | some data =>
    let tid := freshTeamId db
    let teamRow : Team :=
      { team_id := tid
        team_name := data.team.team_name
        institution_name := data.team.institution_name
        payment_proof := filePath files "payment_proof"
        event_id := 3
        user_id := userId
        email := none
        voucher := filePath files "voucher"
        isVerified := false
        isRejected := false
        rejectMessage := none }
    let leaderRow :=
      sbcMemberRow tid data.leader (filePath files "leader_ktm")
        (filePath files "leader_active_student_letter")
        (filePath files "leader_photo") 1
    let db1 :=
      { db with
        teams := db.teams ++ [teamRow]
        members := db.members ++ leaderRow :: sbcMemberRows tid files 0 data.members }
    match data.dosbim.head? with
    | none => ⟨(500, "An error occurred"), db1, unlinkAll disk files⟩
    | some d0 =>
      let dosbimRow : Dosbim :=
        { team_id := tid
          full_name := d0.full_name
          nip := d0.nip
          email := d0.email
          phone_number := d0.phone_number
          photo := filePath files "dosbim_photo" }
      let db2 := { db1 with dosbim := db1.dosbim ++ [dosbimRow] }
      match data.sbc.head? with
      | none => ⟨(500, "An error occurred"), db2, unlinkAll disk files⟩
      | some s0 =>
        let db3 := { db2 with sbc := db2.sbc ++ [⟨tid, s0.bridge_name⟩] }
        ⟨(201, "Team created successfully"), db3, disk⟩

/-- The full request pipeline of a create route: multer first appends
the uploaded files to the disk, then the handler runs. -/
def cicCreatePipeline (db : DB) (disk : Disk) (userId : Nat)
    (data? : Option CicData) (files : UploadedFiles) : HandlerResult :=
  cicCreate db (disk ++ allPaths files) userId data? files

/-- Multer-then-handler pipeline for `POST /teams/fcec/new`. -/
def fcecCreatePipeline (db : DB) (disk : Disk) (userId : Nat)
    (data? : Option FcecData) (files : UploadedFiles) : HandlerResult :=
  fcecCreate db (disk ++ allPaths files) userId data? files

/-- Multer-then-handler pipeline for `POST /teams/sbc/new`. -/
def sbcCreatePipeline (db : DB) (disk : Disk) (userId : Nat)
    (data? : Option SbcData) (files : UploadedFiles) : HandlerResult :=
  sbcCreate db (disk ++ allPaths files) userId data? files

/-! ## List assembly (GET /teams of src/unnamed/part_004, and the
per-track list handlers) -/

/-- `SELECT * FROM members WHERE team_id = :teamId ORDER BY is_leader
DESC`. The application only ever writes 0 or 1 into `is_leader`, so
the descending stable sort is exactly: the leader rows first in
insertion order, then the non-leader rows in insertion order. -/
def orderByLeaderDesc (ms : List Member) : List Member :=
  ms.filter (fun m => m.is_leader != 0) ++ ms.filter (fun m => m.is_leader == 0)

/-- The member rows the list handlers fetch for one team. -/
def membersOfTeam (db : DB) (tid : Nat) : List Member :=
  orderByLeaderDesc (db.members.filter (fun m => m.team_id == tid))

/-- `members.find((member) => member.is_leader === 1)`: the `leader`
field of the assembled view. -/
def leaderField (db : DB) (tid : Nat) : Option Member :=
  (membersOfTeam db tid).find? (fun m => m.is_leader == 1)

/-- `members.filter((member) => member.is_leader === 0)`: the `members`
field of the assembled view. -/
def membersField (db : DB) (tid : Nat) : List Member :=
  (membersOfTeam db tid).filter (fun m => m.is_leader == 0)

/-! ## Verify / reject (src/unnamed/part_004) -/

/-- Row effect of `UPDATE teams SET isVerified = true WHERE team_id =
:team_id` on one row. -/
def verifyUpd (tid : Nat) (t : Team) : Team :=
  if t.team_id == tid then { t with isVerified := true } else t

/-- Row effect of `UPDATE teams SET isRejected = :isRejected,
rejectMessage = :rejectMessage WHERE team_id = :team_id` on one row. -/
def rejectUpd (tid : Nat) (msg : String) (t : Team) : Team :=
  if t.team_id == tid then { t with isRejected := true, rejectMessage := some msg }
  else t

/-- Handler of `PUT /teams/:team_id/verify` (src/unnamed/part_004
lines 104-140): first a SELECT existence check (404 when no row),
then `UPDATE teams SET isVerified = true WHERE team_id = :team_id`. -/
def verifyTeam (db : DB) (tid : Nat) : Reply × DB :=
  if (db.teams.filter (fun t => t.team_id == tid)).isEmpty then
    ((404, "Tim tidak ditemukan"), db)
  else
    ((200, "Tim Berhasil Diverifikasi"),
      { db with teams := db.teams.map (verifyUpd tid) })

/-- Handler of `PUT /teams/:team_id/reject` (src/unnamed/part_004
lines 261-287): no existence check, one unconditional
`UPDATE teams SET isRejected = :isRejected, rejectMessage =
:rejectMessage WHERE team_id = :team_id`, then a 200 reply. -/
def rejectTeam (db : DB) (tid : Nat) (msg : String) : Reply × DB :=
  ((200, "Team rejection status updated successfully"),
    { db with teams := db.teams.map (rejectUpd tid msg) })

/-! ## Delete handlers -/

/-- `DELETE FROM dosbim WHERE team_id = :team_id`. -/
def deleteDosbimRows (db : DB) (tid : Nat) : DB :=
  { db with dosbim := db.dosbim.filter (fun d => d.team_id != tid) }

/-- `DELETE FROM sbc WHERE team_id = :team_id`. -/
def deleteSbcRows (db : DB) (tid : Nat) : DB :=
  { db with sbc := db.sbc.filter (fun s => s.team_id != tid) }

/-- `DELETE FROM fcec WHERE team_id = :team_id`. -/
def deleteFcecRows (db : DB) (tid : Nat) : DB :=
  { db with fcec := db.fcec.filter (fun f => f.team_id != tid) }

/-- `DELETE FROM members WHERE team_id = :team_id`. -/
def deleteMemberRows (db : DB) (tid : Nat) : DB :=
  { db with members := db.members.filter (fun m => m.team_id != tid) }

/-- `DELETE FROM teams WHERE team_id = :team_id`. -/
def deleteTeamRow (db : DB) (tid : Nat) : DB :=
  { db with teams := db.teams.filter (fun t => t.team_id != tid) }

/-- Handler of `DELETE /teams/sbc/delete/:teamId` (routes/sbc.js lines
450-487): the four DELETE statements are issued in the order dosbim,
sbc, members, teams (children before parent). -/
def sbcDeleteTeam (db : DB) (tid : Nat) : Reply × DB :=
  ((200, "All related data has been deleted."),
    deleteTeamRow (deleteMemberRows (deleteSbcRows (deleteDosbimRows db tid) tid) tid) tid)

/-- Handler of `DELETE /teams/fcec/delete/:teamId` (src/unnamed/
part_005 lines 450-485): fcec, then members, then teams. -/
def fcecDeleteTeam (db : DB) (tid : Nat) : Reply × DB :=
  ((200, "Team and related data have been deleted."),
    deleteTeamRow (deleteMemberRows (deleteFcecRows db tid) tid) tid)

/-- Handler of `DELETE /teams/cic/delete/:teamId` (routes/cic.js lines
546-577): CIC has no track-specific table; members, then teams. -/
def cicDeleteTeam (db : DB) (tid : Nat) : Reply × DB :=
  ((200, "Team and members have been deleted."),
    deleteTeamRow (deleteMemberRows db tid) tid)

/-- Referential integrity of the store: every child row references an
existing team. The delete handlers must keep this true at every
intermediate state, which is what the children-before-parent issuing
order buys. -/
def refIntegrity (db : DB) : Prop :=
  (∀ m ∈ db.members, ∃ t ∈ db.teams, t.team_id = m.team_id) ∧
  (∀ d ∈ db.dosbim, ∃ t ∈ db.teams, t.team_id = d.team_id) ∧
  (∀ s ∈ db.sbc, ∃ t ∈ db.teams, t.team_id = s.team_id) ∧
  (∀ f ∈ db.fcec, ∃ t ∈ db.teams, t.team_id = f.team_id)

/-! ## Multer filename policies -/

/-- The characters after the last dot of the tail of the name, if any
(helper for `extname`). -/
def afterLastDot : List Char → Option (List Char)
  | [] => none
  | c :: rest =>
    match afterLastDot rest with
    | some e => some e
    | none => if c = '.' then some rest else none

/-- Model of Node `path.extname` on a bare file name: the substring
from the last dot to the end, or the empty string when there is no dot
or the only dot is the leading character. -/
def extname (name : String) : String :=
  match name.toList with
  | [] => ""
  | _ :: rest =>
    match afterLastDot rest with
    | none => ""
    | some e => String.mk ('.' :: e)

/-- The stored filename of the track routers (identical in
routes/cic.js lines 26-32, routes/sbc.js lines 18-24, routes/craft.js
lines 15-21, src/unnamed/part_005 lines 20-26):
`file.fieldname + '-' + Date.now() + '-' + Math.round(Math.random() *
1e9) + path.extname(file.originalname)`. The client name enters only
through `path.extname`. -/
def trackStoredFilename (fieldname : String) (timestamp rand : Nat)
    (originalname : String) : String :=
  fieldname ++ "-" ++ toString timestamp ++ "-" ++ toString rand ++
    extname originalname

/-- The stored filename of the generic `/upload` endpoint of
src/unnamed/part_002 lines 27-29: `Date.now() + '-' +
file.originalname` — the full client-supplied name is embedded. -/
def uploadStoredFilename (timestamp : Nat) (originalname : String) : String :=
  toString timestamp ++ "-" ++ originalname

/-- Substring test used to state that a client-controlled name occurs
inside a stored name. -/
def containsSubstring (hay needle : String) : Prop :=
  needle.toList <:+: hay.toList

/-! ## Concrete fixtures for witnesses and counterexamples -/

/-- A store with no rows. -/
def emptyDB : DB := ⟨[], [], [], [], []⟩

/-- A sample create-payload team sub-object. -/
def sampleTeamInput : TeamInput :=
  { team_name := "Alpha", institution_name := "X University", email := some "alpha@x.edu" }

/-- A sample member sub-object with the given full name. -/
def sampleMemberInput (n : String) : MemberInput :=
  { full_name := n, department := some "Civil", batch := "2023",
    phone_number := "0812", line_id := "ln", email := "m@x.edu",
    twibbon_and_poster_link := "twb", nim := some "21/1" }

/-- A store already holding an SBC (event 3) team named Alpha. -/
def alphaSbcDB : DB :=
  ⟨[⟨1, "Alpha", "X University", none, 3, 7, none, none, false, false, none⟩],
    [], [], [], []⟩

/-- A store holding an Alpha team in event 4 and one in event 1. -/
def alphaCicFcecDB : DB :=
  ⟨[⟨1, "Alpha", "X University", none, 4, 7, none, none, false, false, none⟩,
    ⟨2, "Alpha", "X University", none, 1, 7, none, none, false, false, none⟩],
    [], [], [], []⟩

/-- A sample SBC create payload naming team Alpha. -/
def sampleSbcData : SbcData :=
  { team := sampleTeamInput
    leader := sampleMemberInput "Leader"
    members := [sampleMemberInput "M1"]
    dosbim := [⟨"Dr. D", "nip1", "d@x.edu", "0813"⟩]
    sbc := [⟨"Bridge One"⟩] }

/-- A sample CIC create payload: leader, two real members and a blank
trailing third entry. -/
def sampleCicData : CicData :=
  { team := sampleTeamInput
    leader := sampleMemberInput "Leader"
    members := [sampleMemberInput "M1", sampleMemberInput "M2", sampleMemberInput "  "] }

/-- A sample FCEC create payload. -/
def sampleFcecData : FcecData :=
  { team := sampleTeamInput
    leader := sampleMemberInput "Leader"
    members := [sampleMemberInput "M1"]
    fcec := { abstract_title := "T", abstract_video_link := "v" } }

/-- A one-team SBC store (event 3) holding a leader member, an advisor
row and an sbc row for team 1. -/
def sampleSbcStore : DB :=
  ⟨[⟨1, "Alpha", "X", none, 3, 7, none, none, false, false, none⟩],
    [⟨1, "L", none, "b", "p", "ln", "e", none, none, none, "t", 1, some "n"⟩],
    [⟨1, "D", "nip", "e", "p", none⟩], [⟨1, "B"⟩], []⟩

/-- A one-team FCEC store (event 1) holding a leader member and an
fcec row for team 2. -/
def sampleFcecStore : DB :=
  ⟨[⟨2, "Beta", "Y", none, 1, 8, none, none, false, false, none⟩],
    [⟨2, "L2", some "d", "b", "p", "ln", "e", none, none, none, "t", 1, none⟩],
    [], [], [⟨2, none, "T", none, "v"⟩]⟩

/-! ## Helper lemmas -/

/-- Deleting exactly the files the request saved restores the
pre-upload disk, provided multer stored them under fresh names. -/
theorem unlinkAll_append (disk : Disk) (files : UploadedFiles)
    (h : ∀ p ∈ disk, p ∉ allPaths files) :
    unlinkAll (disk ++ allPaths files) files = disk := by
  unfold unlinkAll
  rw [List.filter_append]
  have h1 : disk.filter (fun p => ¬ p ∈ allPaths files) = disk :=
    List.filter_eq_self.mpr (fun a ha => by simpa using h a ha)
  have h2 : (allPaths files).filter (fun p => ¬ p ∈ allPaths files) = [] :=
    List.filter_eq_nil_iff.mpr (fun a ha => by simp [ha])
  rw [h1, h2, List.append_nil]

/-- The authenticateToken reply when no usable bearer token was
extracted. -/
theorem authenticateToken_noToken {σ : Type} (envSecret : Option String)
    (now : Nat) (store : σ) (handler : JwtClaims → σ → Reply × σ) :
    authenticateToken BearerExtract.noToken envSecret now store handler
      = ((401, "Authentication token is required"), store) := rfl

/-- The authenticateToken reply on a token with a broken structure or
a signature not made with the configured secret. -/
theorem authenticateToken_invalidToken {σ : Type} (envSecret : Option String)
    (now : Nat) (store : σ) (handler : JwtClaims → σ → Reply × σ) (tok : Jwt)
    (h : tok.wellFormed = false ∨ tok.secret ≠ JWT_SECRET envSecret) :
    authenticateToken (BearerExtract.token tok) envSecret now store handler
      = ((403, "Invalid token"), store) := by
  have hv : jwtVerify tok (JWT_SECRET envSecret) now = VerifyOutcome.jsonWebTokenError := by
    unfold jwtVerify
    rw [if_pos h]
  simp [authenticateToken, hv]

/-- The authenticateToken reply on a well-formed, correctly signed
token whose embedded expiry is not after the wall clock. -/
theorem authenticateToken_expiredToken {σ : Type} (envSecret : Option String)
    (now : Nat) (store : σ) (handler : JwtClaims → σ → Reply × σ) (tok : Jwt)
    (h1 : tok.wellFormed = true) (h2 : tok.secret = JWT_SECRET envSecret)
    (h3 : tok.exp ≤ now) :
    authenticateToken (BearerExtract.token tok) envSecret now store handler
      = ((401, "Token has expired"), store) := by
  have hv : jwtVerify tok (JWT_SECRET envSecret) now = VerifyOutcome.tokenExpiredError := by
    unfold jwtVerify
    rw [if_neg (by simp [h1, h2]), if_pos h3]
  simp [authenticateToken, hv]

/-- Every row built by the CIC member loop carries the new team id and
a zero leader flag. -/
theorem cicMemberRows_team_and_flag (tid : Nat) (files : UploadedFiles) :
    ∀ (idx : Nat) (ms : List MemberInput), ∀ row ∈ cicMemberRows tid files idx ms,
      row.team_id = tid ∧ row.is_leader = 0 := by
  intro idx ms
  induction ms generalizing idx with
  | nil => intro row h; simp [cicMemberRows] at h
  | cons m rest ih =>
    intro row h
    simp only [cicMemberRows] at h
    split at h
    · exact ih _ row h
    · rcases List.mem_cons.mp h with h1 | h1
      · subst h1; exact ⟨rfl, rfl⟩
      · exact ih _ row h1

/-- Re-filtering for a team id after its rows were deleted yields
nothing. -/
theorem filter_eq_of_filter_ne {α : Type} (pid : α → Nat) (tid : Nat) (l : List α) :
    ((l.filter (fun x => pid x != tid)).filter (fun x => pid x == tid)) = [] := by
  apply List.filter_eq_nil_iff.mpr
  intro a ha
  have h2 := (List.mem_filter.mp ha).2
  simp only [bne_iff_ne, ne_eq, decide_eq_true_eq] at h2
  simp [h2]

/-! ## Claim theorems -/

/-- C1: a request to a route guarded by authenticateToken with no
bearer token gets 401 "Authentication token is required"; with a token
whose structure or signature is invalid, 403 "Invalid token"; with a
well-formed correctly signed token whose embedded expiry is past per
the wall clock, 401 "Token has expired". In each failure case the
store comes back unchanged and the downstream handler (universally
quantified here) is never invoked. -/
theorem claim_auth_failure_taxonomy {σ : Type} (envSecret : Option String)
    (now : Nat) (store : σ) (handler : JwtClaims → σ → Reply × σ) (tok : Jwt) :
    (authenticateToken BearerExtract.noToken envSecret now store handler
      = ((401, "Authentication token is required"), store)) ∧
    ((tok.wellFormed = false ∨ tok.secret ≠ JWT_SECRET envSecret) →
      authenticateToken (BearerExtract.token tok) envSecret now store handler
        = ((403, "Invalid token"), store)) ∧
    (tok.wellFormed = true → tok.secret = JWT_SECRET envSecret → tok.exp ≤ now →
      authenticateToken (BearerExtract.token tok) envSecret now store handler
        = ((401, "Token has expired"), store)) :=
  ⟨authenticateToken_noToken envSecret now store handler,
    authenticateToken_invalidToken envSecret now store handler tok,
    authenticateToken_expiredToken envSecret now store handler tok⟩

/-- Witness for C1 at concrete tokens, with every hypothesis
discharged by evaluation. -/
theorem claim_auth_failure_taxonomy_witness :
    (authenticateToken BearerExtract.noToken none 1000 (0 : Nat)
        (fun _ s => ((200, "ok"), s))
      = ((401, "Authentication token is required"), 0)) ∧
    (authenticateToken (BearerExtract.token ⟨⟨1⟩, "wrong-key", true, 2000⟩) none 1000 (0 : Nat)
        (fun _ s => ((200, "ok"), s))
      = ((403, "Invalid token"), 0)) ∧
    (authenticateToken (BearerExtract.token ⟨⟨1⟩, "backendCIA", true, 500⟩) none 1000 (0 : Nat)
        (fun _ s => ((200, "ok"), s))
      = ((401, "Token has expired"), 0)) :=
  ⟨(claim_auth_failure_taxonomy none 1000 0 _ ⟨⟨1⟩, "wrong-key", true, 2000⟩).1,
    (claim_auth_failure_taxonomy none 1000 0 _ ⟨⟨1⟩, "wrong-key", true, 2000⟩).2.1
      (Or.inr (by decide)),
    (claim_auth_failure_taxonomy none 1000 0 _ ⟨⟨1⟩, "backendCIA", true, 500⟩).2.2
      rfl (by decide) (by decide)⟩

/-- C4: the login handler signs with the fixed string
"your-secret-key" while the verifier checks against
`process.env.JWT_SECRET || 'backendCIA'`; whenever the configured
verification key differs from "your-secret-key" (in particular under
the default configuration, where it is "backendCIA"), every token
obtained from login is rejected with 403 "Invalid token". -/
theorem claim_login_token_rejected {σ : Type} (envSecret : Option String)
    (h : JWT_SECRET envSecret ≠ "your-secret-key")
    (uid issuedAt now : Nat) (store : σ) (handler : JwtClaims → σ → Reply × σ) :
    (authenticateToken (BearerExtract.token (loginToken uid issuedAt)) envSecret now store handler
      = ((403, "Invalid token"), store)) ∧
    JWT_SECRET none = "backendCIA" ∧
    (loginToken uid issuedAt).secret = "your-secret-key" :=
  ⟨authenticateToken_invalidToken envSecret now store handler (loginToken uid issuedAt)
      (Or.inr (fun he => h he.symm)),
    rfl, rfl⟩

/-- Witness for C4 under the default configuration (JWT_SECRET
unset). -/
theorem claim_login_token_rejected_witness :
    (authenticateToken (BearerExtract.token (loginToken 3 100)) none 200 (0 : Nat)
        (fun _ s => ((200, "ok"), s))
      = ((403, "Invalid token"), 0)) ∧
    JWT_SECRET none = "backendCIA" ∧
    (loginToken 3 100).secret = "your-secret-key" :=
  claim_login_token_rejected none (by decide) 3 100 200 0 _

/-- C3 counterexample: it is NOT the case that every Registration
Workflow / Query Service route carries the authenticateToken
middleware — `PUT /teams/:team_id/verify` (src/unnamed/part_004 line
104) is registered without it. -/
theorem claim_all_routes_guarded_counterexample :
    ¬ (∀ r ∈ workflowRoutes, r.authenticated = true) := by
  decide

/-- C3 amended: every Registration Workflow and Participant Query
Service route EXCEPT `PUT /teams/:team_id/verify` carries the
authenticateToken middleware, and on a guarded route a request
without a usable bearer token is answered 401 by the middleware with
the store untouched and the handler never invoked. -/
theorem claim_routes_guarded_except_verify :
    (∀ r ∈ workflowRoutes, r ≠ verifyRoute → r.authenticated = true) ∧
    verifyRoute ∈ workflowRoutes ∧
    verifyRoute.authenticated = false ∧
    (∀ (σ : Type) (envSecret : Option String) (now : Nat) (store : σ)
        (handler : JwtClaims → σ → Reply × σ),
      authenticateToken BearerExtract.noToken envSecret now store handler
        = ((401, "Authentication token is required"), store)) :=
  ⟨by decide, by decide, by decide,
    fun σ envSecret now store handler =>
      authenticateToken_noToken envSecret now store handler⟩

/-- Witness for C3 (amended) at one concrete guarded route. -/
theorem claim_routes_guarded_except_verify_witness :
    ({ method := "POST", path := "/teams/cic/new", authenticated := true } : Route).authenticated
      = true :=
  claim_routes_guarded_except_verify.1
    { method := "POST", path := "/teams/cic/new", authenticated := true }
    (by decide) (by decide)

/-- C10: the reject handler runs its UPDATE with no existence check
and replies 200 "Team rejection status updated successfully" even
when no team with the id exists (zero rows affected, store
unchanged), while the verify handler checks existence first and
replies 404 for a missing team. -/
theorem claim_reject_unchecked_verify_checked (db : DB) (tid : Nat) (msg : String)
    (habs : ∀ t ∈ db.teams, t.team_id ≠ tid) :
    rejectTeam db tid msg = ((200, "Team rejection status updated successfully"), db) ∧
    verifyTeam db tid = ((404, "Tim tidak ditemukan"), db) := by
  constructor
  · unfold rejectTeam
    have hmap : db.teams.map (rejectUpd tid msg) = db.teams := by
      have := List.map_congr_left (l := db.teams) (f := rejectUpd tid msg) (g := id)
        (fun t ht => by unfold rejectUpd; simp [habs t ht])
      simpa using this
    rw [hmap]
  · unfold verifyTeam
    have hfil : db.teams.filter (fun t => t.team_id == tid) = [] :=
      List.filter_eq_nil_iff.mpr (fun t ht => by simp [habs t ht])
    rw [if_pos (by rw [hfil]; rfl)]

/-- Witness for C10: a store holding only team 1, rejected and
verified at the absent id 2. -/
theorem claim_reject_unchecked_verify_checked_witness :
    rejectTeam alphaSbcDB 2 "no" = ((200, "Team rejection status updated successfully"), alphaSbcDB) ∧
    verifyTeam alphaSbcDB 2 = ((404, "Tim tidak ditemukan"), alphaSbcDB) :=
  claim_reject_unchecked_verify_checked alphaSbcDB 2 "no" (by decide)

/-- C9 counterexample: the /upload endpoint of src/unnamed/part_002
stores `Date.now() + '-' + file.originalname`: the client-supplied
name appears verbatim in the stored name, and two client names with
the same extension produce different stored names, so the client name
is not used only for extension sniffing. -/
theorem claim_filename_policy_counterexample :
    uploadStoredFilename 1700000000000 "evil.pdf" = "1700000000000-evil.pdf" ∧
    containsSubstring (uploadStoredFilename 1700000000000 "evil.pdf") "evil" ∧
    extname "evil.pdf" = extname "x.pdf" ∧
    uploadStoredFilename 1700000000000 "evil.pdf" ≠ uploadStoredFilename 1700000000000 "x.pdf" := by
  refine ⟨by decide, ?_, by decide, by decide⟩
  exact ⟨"1700000000000-".toList, ".pdf".toList, by decide⟩

/-- C9 amended: the four track routers (cic, sbc, fcec, craft) store
each file under the generated name {field}-{timestamp}-{random}{ext},
using the client-supplied name only through path.extname — two client
names with the same extension yield the same stored name — but the
generic /upload endpoint of src/unnamed/part_002 instead stores
{timestamp}-{originalname}, embedding the client-supplied name. -/
theorem claim_track_filenames_generated (field : String) (ts rnd : Nat)
    (n1 n2 : String) (h : extname n1 = extname n2) :
    trackStoredFilename field ts rnd n1
        = field ++ "-" ++ toString ts ++ "-" ++ toString rnd ++ extname n1 ∧
    trackStoredFilename field ts rnd n1 = trackStoredFilename field ts rnd n2 ∧
    (∀ ts0 name, uploadStoredFilename ts0 name = toString ts0 ++ "-" ++ name) := by
  refine ⟨rfl, ?_, fun ts0 name => rfl⟩
  unfold trackStoredFilename
  rw [h]

/-- Witness for C9 (amended) at concrete names sharing an
extension. -/
theorem claim_track_filenames_generated_witness :
    trackStoredFilename "ktm" 1700000000000 55 "a.png"
        = "ktm" ++ "-" ++ toString 1700000000000 ++ "-" ++ toString 55 ++ extname "a.png" ∧
    trackStoredFilename "ktm" 1700000000000 55 "a.png"
        = trackStoredFilename "ktm" 1700000000000 55 "b.png" ∧
    (∀ ts0 name, uploadStoredFilename ts0 name = toString ts0 ++ "-" ++ name) :=
  claim_track_filenames_generated "ktm" 1700000000000 55 "a.png" "b.png" (by decide)

/-- C2 counterexample: `POST /teams/sbc/new` performs no
duplicate-team-name check. Creating a second SBC team named Alpha in
a store that already holds one succeeds with 201 and inserts a second
Alpha team row for event 3, contradicting "every track's Create
operation fails with Conflict and inserts nothing". -/
theorem claim_duplicate_conflict_counterexample :
    (sbcCreatePipeline alphaSbcDB [] 7 (some sampleSbcData) []).reply
      = (201, "Team created successfully") ∧
    ((sbcCreatePipeline alphaSbcDB [] 7 (some sampleSbcData) []).db.teams.filter
        (fun t => t.team_name == "Alpha" && t.event_id == 3)).length = 2 := by
  constructor
  · rfl
  · rfl

/-- C2 amended: the CIC and FCEC Create operations detect a duplicate
team name within their event, reply 400 "Team name already exists"
(the conflict status of the spec taxonomy), delete every file the
request uploaded (the disk is restored to its pre-upload contents)
and insert no row; the SBC Create operation has no such check — on a
duplicate name it still replies 201 and inserts a new team row. -/
theorem claim_duplicate_conflict_cic_fcec_only
    (db : DB) (disk : Disk) (uid : Nat) (files : UploadedFiles)
    (cdata : CicData) (fdata : FcecData) (sdata : SbcData)
    (hfiles : ∀ p ∈ disk, p ∉ allPaths files)
    (hcdup : db.teams.any (fun t => t.team_name == cdata.team.team_name && t.event_id == 4) = true)
    (hfdup : db.teams.any (fun t => t.team_name == fdata.team.team_name && t.event_id == 1) = true)
    (hdos : sdata.dosbim ≠ []) (hsbc : sdata.sbc ≠ []) :
    (cicCreatePipeline db disk uid (some cdata) files
      = ⟨(400, "Team name already exists"), db, disk⟩) ∧
    (fcecCreatePipeline db disk uid (some fdata) files
      = ⟨(400, "Team name already exists"), db, disk⟩) ∧
    (sbcCreatePipeline db disk uid (some sdata) files).reply
      = (201, "Team created successfully") ∧
    (sbcCreatePipeline db disk uid (some sdata) files).db.teams.length
      = db.teams.length + 1 := by
  have hd := unlinkAll_append disk files hfiles
  refine ⟨?_, ?_, ?_, ?_⟩
  · simp [cicCreatePipeline, cicCreate, hcdup, hd]
  · simp [fcecCreatePipeline, fcecCreate, hfdup, hd]
  · obtain ⟨d0, ds, hds⟩ := List.exists_cons_of_ne_nil hdos
    obtain ⟨s0, ss, hss⟩ := List.exists_cons_of_ne_nil hsbc
    simp [sbcCreatePipeline, sbcCreate, hds, hss]
  · obtain ⟨d0, ds, hds⟩ := List.exists_cons_of_ne_nil hdos
    obtain ⟨s0, ss, hss⟩ := List.exists_cons_of_ne_nil hsbc
    simp [sbcCreatePipeline, sbcCreate, hds, hss]

/-- Witness for C2 (amended): a store holding Alpha teams in events 4
and 1, a fresh upload, and the sample payloads all naming Alpha. -/
theorem claim_duplicate_conflict_cic_fcec_only_witness :
    ((∀ p ∈ ["uploads/old.pdf"], p ∉ allPaths [("payment_proof", "uploads/cic/pp-1-2.pdf")]) ∧
      alphaCicFcecDB.teams.any
        (fun t => t.team_name == sampleCicData.team.team_name && t.event_id == 4) = true) ∧
    (cicCreatePipeline alphaCicFcecDB ["uploads/old.pdf"] 7 (some sampleCicData)
        [("payment_proof", "uploads/cic/pp-1-2.pdf")]
      = ⟨(400, "Team name already exists"), alphaCicFcecDB, ["uploads/old.pdf"]⟩) ∧
    (fcecCreatePipeline alphaCicFcecDB ["uploads/old.pdf"] 7 (some sampleFcecData)
        [("payment_proof", "uploads/cic/pp-1-2.pdf")]
      = ⟨(400, "Team name already exists"), alphaCicFcecDB, ["uploads/old.pdf"]⟩) ∧
    (sbcCreatePipeline alphaCicFcecDB ["uploads/old.pdf"] 7 (some sampleSbcData)
        [("payment_proof", "uploads/cic/pp-1-2.pdf")]).reply
      = (201, "Team created successfully") ∧
    (sbcCreatePipeline alphaCicFcecDB ["uploads/old.pdf"] 7 (some sampleSbcData)
        [("payment_proof", "uploads/cic/pp-1-2.pdf")]).db.teams.length
      = alphaCicFcecDB.teams.length + 1 :=
  ⟨⟨by decide, by decide⟩,
    claim_duplicate_conflict_cic_fcec_only alphaCicFcecDB ["uploads/old.pdf"] 7
      [("payment_proof", "uploads/cic/pp-1-2.pdf")] sampleCicData sampleFcecData sampleSbcData
      (by decide) (by decide) (by decide) (by decide) (by decide)⟩

/-- C8 counterexample: with one leader and TWO member entries of which
the trailing one is blank, the blank member is NOT skipped — the skip
condition `index === 2` never fires for a two-entry array, so a member
row with a blank (all-whitespace) name is inserted: the new team has 3
member rows of which one is blank-named, contradicting "the blank
trailing member skipped". -/
theorem claim_cic_blank_skip_counterexample :
    ((cicCreate emptyDB [] 7
        (some ⟨sampleTeamInput, sampleMemberInput "Leader",
          [sampleMemberInput "M1", sampleMemberInput "  "]⟩) []).db.members.filter
        (fun m => m.team_id == 1)).length = 3 ∧
    ((cicCreate emptyDB [] 7
        (some ⟨sampleTeamInput, sampleMemberInput "Leader",
          [sampleMemberInput "M1", sampleMemberInput "  "]⟩) []).db.members.filter
        (fun m => m.team_id == 1 && jsTrim m.full_name == "")).length = 1 := by
  exact ⟨rfl, rfl⟩

/-- C8 amended: the CIC Create skip rule fires only for the THIRD
member entry (index 2) when its name is blank: registering a CIC team
with one leader and three member entries of which the trailing third
is blank creates exactly 3 member rows — the leader row with
is_leader = 1 and the rows for the two real members with is_leader =
0; the blank third entry is skipped. -/
theorem claim_cic_trailing_blank_skipped
    (db : DB) (disk : Disk) (uid : Nat) (files : UploadedFiles)
    (team : TeamInput) (L m1 m2 m3 : MemberInput)
    (hdup : db.teams.any (fun t => t.team_name == team.team_name && t.event_id == 4) = false)
    (hfresh : ∀ m ∈ db.members, m.team_id ≠ freshTeamId db)
    (hblank : jsTrim m3.full_name = "") :
    (cicCreate db disk uid (some ⟨team, L, [m1, m2, m3]⟩) files).db.members.filter
        (fun m => m.team_id == freshTeamId db)
      = [cicMemberRow (freshTeamId db) L (filePath files "leader_ktm")
            (filePath files "leader_active_student_letter") (filePath files "leader_photo") 1,
          cicMemberRow (freshTeamId db) m1 (memberKtm files 1) (memberAsl files 1)
            (memberPhoto files 1) 0,
          cicMemberRow (freshTeamId db) m2 (memberKtm files 2) (memberAsl files 2)
            (memberPhoto files 2) 0] ∧
    ((cicCreate db disk uid (some ⟨team, L, [m1, m2, m3]⟩) files).db.members.filter
        (fun m => m.team_id == freshTeamId db)).length = 3 ∧
    ((cicCreate db disk uid (some ⟨team, L, [m1, m2, m3]⟩) files).db.members.filter
        (fun m => m.team_id == freshTeamId db && m.is_leader == 1)).length = 1 := by
  have hrows : cicMemberRows (freshTeamId db) files 0 [m1, m2, m3]
      = [cicMemberRow (freshTeamId db) m1 (memberKtm files 1) (memberAsl files 1)
            (memberPhoto files 1) 0,
          cicMemberRow (freshTeamId db) m2 (memberKtm files 2) (memberAsl files 2)
            (memberPhoto files 2) 0] := by
    simp [cicMemberRows, hblank]
  have hmem : (cicCreate db disk uid (some ⟨team, L, [m1, m2, m3]⟩) files).db.members
      = db.members ++
          cicMemberRow (freshTeamId db) L (filePath files "leader_ktm")
              (filePath files "leader_active_student_letter") (filePath files "leader_photo") 1 ::
            cicMemberRows (freshTeamId db) files 0 [m1, m2, m3] := by
    simp [cicCreate, hdup]
  have hold : ∀ (p : Member → Bool), (∀ m, m.team_id ≠ freshTeamId db → p m = false) →
      db.members.filter p = [] := by
    intro p hp
    exact List.filter_eq_nil_iff.mpr (fun m hm => by simp [hp m (hfresh m hm)])
  refine ⟨?_, ?_, ?_⟩
  · rw [hmem, hrows, List.filter_append,
      hold _ (fun m hm => by simp [hm]), List.nil_append]
    simp [cicMemberRow]
  · rw [hmem, hrows, List.filter_append,
      hold _ (fun m hm => by simp [hm]), List.nil_append]
    simp [cicMemberRow]
  · rw [hmem, hrows, List.filter_append,
      hold _ (fun m hm => by simp [hm]), List.nil_append]
    simp [cicMemberRow]

/-- Witness for C8 (amended): the sample CIC payload (leader, two real
members, blank trailing third) against the empty store. -/
theorem claim_cic_trailing_blank_skipped_witness :
    (cicCreate emptyDB [] 7 (some ⟨sampleTeamInput, sampleMemberInput "Leader",
        [sampleMemberInput "M1", sampleMemberInput "M2", sampleMemberInput "  "]⟩)
        []).db.members.filter (fun m => m.team_id == freshTeamId emptyDB)
      = [cicMemberRow (freshTeamId emptyDB) (sampleMemberInput "Leader")
            (filePath [] "leader_ktm") (filePath [] "leader_active_student_letter")
            (filePath [] "leader_photo") 1,
          cicMemberRow (freshTeamId emptyDB) (sampleMemberInput "M1")
            (memberKtm [] 1) (memberAsl [] 1) (memberPhoto [] 1) 0,
          cicMemberRow (freshTeamId emptyDB) (sampleMemberInput "M2")
            (memberKtm [] 2) (memberAsl [] 2) (memberPhoto [] 2) 0] ∧
    ((cicCreate emptyDB [] 7 (some ⟨sampleTeamInput, sampleMemberInput "Leader",
        [sampleMemberInput "M1", sampleMemberInput "M2", sampleMemberInput "  "]⟩)
        []).db.members.filter (fun m => m.team_id == freshTeamId emptyDB)).length = 3 ∧
    ((cicCreate emptyDB [] 7 (some ⟨sampleTeamInput, sampleMemberInput "Leader",
        [sampleMemberInput "M1", sampleMemberInput "M2", sampleMemberInput "  "]⟩)
        []).db.members.filter
        (fun m => m.team_id == freshTeamId emptyDB && m.is_leader == 1)).length = 1 :=
  claim_cic_trailing_blank_skipped emptyDB [] 7 [] sampleTeamInput
    (sampleMemberInput "Leader") (sampleMemberInput "M1") (sampleMemberInput "M2")
    (sampleMemberInput "  ") (by decide) (by decide) (by decide)

/-- Every row built by the FCEC member loop carries the new team id
and a zero leader flag. -/
theorem fcecMemberRows_team_and_flag (tid : Nat) (files : UploadedFiles) :
    ∀ (idx : Nat) (ms : List MemberInput), ∀ row ∈ fcecMemberRows tid files idx ms,
      row.team_id = tid ∧ row.is_leader = 0 := by
  intro idx ms
  induction ms generalizing idx with
  | nil => intro row h; simp [fcecMemberRows] at h
  | cons m rest ih =>
    intro row h
    simp only [fcecMemberRows] at h
    rcases List.mem_cons.mp h with h1 | h1
    · subst h1; exact ⟨rfl, rfl⟩
    · exact ih _ row h1

/-- Every row built by the SBC member loop carries the new team id
and a zero leader flag. -/
theorem sbcMemberRows_team_and_flag (tid : Nat) (files : UploadedFiles) :
    ∀ (idx : Nat) (ms : List MemberInput), ∀ row ∈ sbcMemberRows tid files idx ms,
      row.team_id = tid ∧ row.is_leader = 0 := by
  intro idx ms
  induction ms generalizing idx with
  | nil => intro row h; simp [sbcMemberRows] at h
  | cons m rest ih =>
    intro row h
    simp only [sbcMemberRows] at h
    rcases List.mem_cons.mp h with h1 | h1
    · subst h1; exact ⟨rfl, rfl⟩
    · exact ih _ row h1

/-- The leader-count and list-split facts common to every track: when
a store's member table is the old rows (none of them of team `tid`)
followed by a leader row of team `tid` with flag 1 and further rows
of team `tid` with flag 0, then team `tid` has exactly one leader
row, and the list assembly returns it in the leader field while the
members field is exactly the flag-0 rows of the team. -/
theorem leader_split_of_append (db2 : DB) (tid : Nat) (old : List Member)
    (L : Member) (R : List Member)
    (hmem : db2.members = old ++ L :: R)
    (hfresh : ∀ m ∈ old, m.team_id ≠ tid)
    (hLteam : L.team_id = tid) (hLflag : L.is_leader = 1)
    (hR : ∀ row ∈ R, row.team_id = tid ∧ row.is_leader = 0) :
    ((db2.members.filter (fun m => m.team_id == tid && m.is_leader == 1)).length = 1 ∧
      leaderField db2 tid = some L ∧
      membersField db2 tid
        = db2.members.filter (fun m => m.team_id == tid && m.is_leader == 0)) := by
  have hold : ∀ (p : Member → Bool), (∀ m, m.team_id ≠ tid → p m = false) →
      old.filter p = [] := by
    intro p hp
    exact List.filter_eq_nil_iff.mpr (fun m hm => by simp [hp m (hfresh m hm)])
  have hfilTid : (old ++ L :: R).filter (fun m => m.team_id == tid) = L :: R := by
    rw [List.filter_append, hold _ (fun m hm => by simp [hm]), List.nil_append]
    refine List.filter_eq_self.mpr (fun m hm => ?_)
    rcases List.mem_cons.mp hm with h | h
    · subst h; simp [hLteam]
    · simp [(hR m h).1]
  have horder : membersOfTeam db2 tid = L :: R := by
    unfold membersOfTeam
    rw [hmem, hfilTid]
    unfold orderByLeaderDesc
    have h1 : (L :: R).filter (fun m => m.is_leader != 0) = [L] := by
      rw [List.filter_cons_of_pos (by simp [hLflag]),
        List.filter_eq_nil_iff.mpr (fun m hm => by simp [(hR m hm).2])]
    have h2 : (L :: R).filter (fun m => m.is_leader == 0) = R := by
      rw [List.filter_cons_of_neg (by simp [hLflag])]
      exact List.filter_eq_self.mpr (fun m hm => by simp [(hR m hm).2])
    rw [h1, h2, List.singleton_append]
  refine ⟨?_, ?_, ?_⟩
  · rw [hmem, List.filter_append, hold _ (fun m hm => by simp [hm]), List.nil_append,
      List.filter_cons_of_pos (by simp [hLflag, hLteam]),
      List.filter_eq_nil_iff.mpr (fun m hm => by simp [(hR m hm).2])]
    rfl
  · unfold leaderField
    rw [horder, List.find?_cons_of_pos _ (by simp [hLflag])]
  · unfold membersField
    rw [horder, List.filter_cons_of_neg (by simp [hLflag]), hmem, List.filter_append,
      hold _ (fun m hm => by simp [hm]), List.nil_append,
      List.filter_cons_of_neg (by simp [hLflag])]
    rw [List.filter_eq_self.mpr (fun m hm => by simp [(hR m hm).2]),
      List.filter_eq_self.mpr (fun m hm => by simp [(hR m hm).1, (hR m hm).2])]

/-- C5: after any track's Create operation succeeds (CIC, SBC and
FCEC — only these tracks have teams with members; CRAFT registers
standalone participants), exactly one member row of the new team has
leader status: the leader row is inserted with is_leader = 1 and
every other member row with is_leader = 0, and the list assembly
returns that unique leader row in the leader field while the members
field contains exactly the rows of the team with is_leader = 0. -/
theorem claim_create_unique_leader_split
    (db : DB) (disk : Disk) (uid : Nat) (files : UploadedFiles)
    (cdata : CicData) (sdata : SbcData) (fdata : FcecData)
    (hcdup : db.teams.any (fun t => t.team_name == cdata.team.team_name && t.event_id == 4) = false)
    (hfdup : db.teams.any (fun t => t.team_name == fdata.team.team_name && t.event_id == 1) = false)
    (hdos : sdata.dosbim ≠ []) (hsbc : sdata.sbc ≠ [])
    (hfresh : ∀ m ∈ db.members, m.team_id ≠ freshTeamId db) :
    (cicCreate db disk uid (some cdata) files).reply
      = (201, "Team and members created successfully") ∧
    ((cicCreate db disk uid (some cdata) files).db.members.filter
        (fun m => m.team_id == freshTeamId db && m.is_leader == 1)).length = 1 ∧
    leaderField (cicCreate db disk uid (some cdata) files).db (freshTeamId db)
      = some (cicMemberRow (freshTeamId db) cdata.leader (filePath files "leader_ktm")
          (filePath files "leader_active_student_letter") (filePath files "leader_photo") 1) ∧
    membersField (cicCreate db disk uid (some cdata) files).db (freshTeamId db)
      = (cicCreate db disk uid (some cdata) files).db.members.filter
          (fun m => m.team_id == freshTeamId db && m.is_leader == 0) ∧
    (sbcCreate db disk uid (some sdata) files).reply
      = (201, "Team created successfully") ∧
    ((sbcCreate db disk uid (some sdata) files).db.members.filter
        (fun m => m.team_id == freshTeamId db && m.is_leader == 1)).length = 1 ∧
    leaderField (sbcCreate db disk uid (some sdata) files).db (freshTeamId db)
      = some (sbcMemberRow (freshTeamId db) sdata.leader (filePath files "leader_ktm")
          (filePath files "leader_active_student_letter") (filePath files "leader_photo") 1) ∧
    membersField (sbcCreate db disk uid (some sdata) files).db (freshTeamId db)
      = (sbcCreate db disk uid (some sdata) files).db.members.filter
          (fun m => m.team_id == freshTeamId db && m.is_leader == 0) ∧
    (fcecCreate db disk uid (some fdata) files).reply
      = (201, "Team created successfully") ∧
    ((fcecCreate db disk uid (some fdata) files).db.members.filter
        (fun m => m.team_id == freshTeamId db && m.is_leader == 1)).length = 1 ∧
    leaderField (fcecCreate db disk uid (some fdata) files).db (freshTeamId db)
      = some (cicMemberRow (freshTeamId db) fdata.leader (filePath files "leader_ktm")
          (filePath files "leader_active_student_letter") (filePath files "leader_photo") 1) ∧
    membersField (fcecCreate db disk uid (some fdata) files).db (freshTeamId db)
      = (fcecCreate db disk uid (some fdata) files).db.members.filter
          (fun m => m.team_id == freshTeamId db && m.is_leader == 0) := by
  obtain ⟨d0, ds, hds⟩ := List.exists_cons_of_ne_nil hdos
  obtain ⟨s0, ss, hss⟩ := List.exists_cons_of_ne_nil hsbc
  have hmemc : (cicCreate db disk uid (some cdata) files).db.members
      = db.members ++ cicMemberRow (freshTeamId db) cdata.leader (filePath files "leader_ktm")
          (filePath files "leader_active_student_letter") (filePath files "leader_photo") 1
        :: cicMemberRows (freshTeamId db) files 0 cdata.members := by
    simp [cicCreate, hcdup]
  have hc := leader_split_of_append _ (freshTeamId db) db.members _ _ hmemc hfresh rfl rfl
    (cicMemberRows_team_and_flag (freshTeamId db) files 0 cdata.members)
  have hmems : (sbcCreate db disk uid (some sdata) files).db.members
      = db.members ++ sbcMemberRow (freshTeamId db) sdata.leader (filePath files "leader_ktm")
          (filePath files "leader_active_student_letter") (filePath files "leader_photo") 1
        :: sbcMemberRows (freshTeamId db) files 0 sdata.members := by
    simp [sbcCreate, hds, hss]
  have hs := leader_split_of_append _ (freshTeamId db) db.members _ _ hmems hfresh rfl rfl
    (sbcMemberRows_team_and_flag (freshTeamId db) files 0 sdata.members)
  have hmemf : (fcecCreate db disk uid (some fdata) files).db.members
      = db.members ++ cicMemberRow (freshTeamId db) fdata.leader (filePath files "leader_ktm")
          (filePath files "leader_active_student_letter") (filePath files "leader_photo") 1
        :: fcecMemberRows (freshTeamId db) files 0 fdata.members := by
    simp [fcecCreate, hfdup]
  have hf := leader_split_of_append _ (freshTeamId db) db.members _ _ hmemf hfresh rfl rfl
    (fcecMemberRows_team_and_flag (freshTeamId db) files 0 fdata.members)
  exact ⟨by simp [cicCreate, hcdup], hc.1, hc.2.1, hc.2.2,
    by simp [sbcCreate, hds, hss], hs.1, hs.2.1, hs.2.2,
    by simp [fcecCreate, hfdup], hf.1, hf.2.1, hf.2.2⟩

/-- Witness for C5 at the sample CIC, SBC and FCEC payloads against
the empty store. -/
theorem claim_create_unique_leader_split_witness :
    (cicCreate emptyDB [] 7 (some sampleCicData) []).reply
      = (201, "Team and members created successfully") ∧
    ((cicCreate emptyDB [] 7 (some sampleCicData) []).db.members.filter
        (fun m => m.team_id == freshTeamId emptyDB && m.is_leader == 1)).length = 1 ∧
    leaderField (cicCreate emptyDB [] 7 (some sampleCicData) []).db (freshTeamId emptyDB)
      = some (cicMemberRow (freshTeamId emptyDB) sampleCicData.leader (filePath [] "leader_ktm")
          (filePath [] "leader_active_student_letter") (filePath [] "leader_photo") 1) ∧
    membersField (cicCreate emptyDB [] 7 (some sampleCicData) []).db (freshTeamId emptyDB)
      = (cicCreate emptyDB [] 7 (some sampleCicData) []).db.members.filter
          (fun m => m.team_id == freshTeamId emptyDB && m.is_leader == 0) ∧
    ((sbcCreate emptyDB [] 7 (some sampleSbcData) []).db.members.filter
        (fun m => m.team_id == freshTeamId emptyDB && m.is_leader == 1)).length = 1 ∧
    leaderField (sbcCreate emptyDB [] 7 (some sampleSbcData) []).db (freshTeamId emptyDB)
      = some (sbcMemberRow (freshTeamId emptyDB) sampleSbcData.leader (filePath [] "leader_ktm")
          (filePath [] "leader_active_student_letter") (filePath [] "leader_photo") 1) ∧
    ((fcecCreate emptyDB [] 7 (some sampleFcecData) []).db.members.filter
        (fun m => m.team_id == freshTeamId emptyDB && m.is_leader == 1)).length = 1 ∧
    leaderField (fcecCreate emptyDB [] 7 (some sampleFcecData) []).db (freshTeamId emptyDB)
      = some (cicMemberRow (freshTeamId emptyDB) sampleFcecData.leader (filePath [] "leader_ktm")
          (filePath [] "leader_active_student_letter") (filePath [] "leader_photo") 1) := by
  obtain ⟨c1, c2, c3, c4, s1, s2, s3, s4, f1, f2, f3, f4⟩ :=
    claim_create_unique_leader_split emptyDB [] 7 [] sampleCicData sampleSbcData sampleFcecData
      (by decide) (by decide) (by decide) (by decide) (by decide)
  exact ⟨c1, c2, c3, c4, s2, s3, f2, f3⟩

/-- Deleting dosbim rows only shrinks a child table, so referential
integrity survives. -/
theorem refIntegrity_deleteDosbimRows (db : DB) (tid : Nat) (h : refIntegrity db) :
    refIntegrity (deleteDosbimRows db tid) := by
  obtain ⟨hm, hd, hs, hf⟩ := h
  exact ⟨hm, fun d hd2 => hd d (List.mem_of_mem_filter hd2), hs, hf⟩

/-- Deleting sbc rows only shrinks a child table. -/
theorem refIntegrity_deleteSbcRows (db : DB) (tid : Nat) (h : refIntegrity db) :
    refIntegrity (deleteSbcRows db tid) := by
  obtain ⟨hm, hd, hs, hf⟩ := h
  exact ⟨hm, hd, fun s hs2 => hs s (List.mem_of_mem_filter hs2), hf⟩

/-- Deleting fcec rows only shrinks a child table. -/
theorem refIntegrity_deleteFcecRows (db : DB) (tid : Nat) (h : refIntegrity db) :
    refIntegrity (deleteFcecRows db tid) := by
  obtain ⟨hm, hd, hs, hf⟩ := h
  exact ⟨hm, hd, hs, fun f hf2 => hf f (List.mem_of_mem_filter hf2)⟩

/-- Deleting member rows only shrinks a child table. -/
theorem refIntegrity_deleteMemberRows (db : DB) (tid : Nat) (h : refIntegrity db) :
    refIntegrity (deleteMemberRows db tid) := by
  obtain ⟨hm, hd, hs, hf⟩ := h
  exact ⟨fun m hm2 => hm m (List.mem_of_mem_filter hm2), hd, hs, hf⟩

/-- Deleting the team row is safe once no child row references it:
every remaining child references a different team, which survives the
team filter. -/
theorem refIntegrity_deleteTeamRow (db : DB) (tid : Nat) (h : refIntegrity db)
    (hm : ∀ m ∈ db.members, m.team_id ≠ tid) (hd : ∀ d ∈ db.dosbim, d.team_id ≠ tid)
    (hs : ∀ s ∈ db.sbc, s.team_id ≠ tid) (hf : ∀ f ∈ db.fcec, f.team_id ≠ tid) :
    refIntegrity (deleteTeamRow db tid) := by
  obtain ⟨h1, h2, h3, h4⟩ := h
  refine ⟨fun m hm2 => ?_, fun d hd2 => ?_, fun s hs2 => ?_, fun f hf2 => ?_⟩
  · obtain ⟨t, ht, hteq⟩ := h1 m hm2
    refine ⟨t, List.mem_filter.mpr ⟨ht, ?_⟩, hteq⟩
    simp only [bne_iff_ne, ne_eq, decide_eq_true_eq, hteq]
    exact hm m hm2
  · obtain ⟨t, ht, hteq⟩ := h2 d hd2
    refine ⟨t, List.mem_filter.mpr ⟨ht, ?_⟩, hteq⟩
    simp only [bne_iff_ne, ne_eq, decide_eq_true_eq, hteq]
    exact hd d hd2
  · obtain ⟨t, ht, hteq⟩ := h3 s hs2
    refine ⟨t, List.mem_filter.mpr ⟨ht, ?_⟩, hteq⟩
    simp only [bne_iff_ne, ne_eq, decide_eq_true_eq, hteq]
    exact hs s hs2
  · obtain ⟨t, ht, hteq⟩ := h4 f hf2
    refine ⟨t, List.mem_filter.mpr ⟨ht, ?_⟩, hteq⟩
    simp only [bne_iff_ne, ne_eq, decide_eq_true_eq, hteq]
    exact hf f hf2

/-- C6: each track's delete removes its track-specific rows, then the
member rows, then the team row. The cleanup postconditions are
unconditional: after the SBC, FCEC and CIC deletes no member row and
no track-specific row with that team id remains (the re-query of
every affected table is empty). The point of the children-before-
parent issuing order is then stated for the SBC and FCEC sequences:
every intermediate state still satisfies referential integrity
whenever the initial store did — under the cross-track separation
each guard needs, since neither delete touches the other track's
table (the SBC delete leaves fcec rows alone, the FCEC delete leaves
dosbim and sbc rows alone). -/
theorem claim_delete_order_and_cleanup (db : DB) (tid : Nat) :
    ((sbcDeleteTeam db tid).2.dosbim.filter (fun d => d.team_id == tid) = [] ∧
      (sbcDeleteTeam db tid).2.sbc.filter (fun s => s.team_id == tid) = [] ∧
      (sbcDeleteTeam db tid).2.members.filter (fun m => m.team_id == tid) = [] ∧
      (sbcDeleteTeam db tid).2.teams.filter (fun t => t.team_id == tid) = []) ∧
    ((fcecDeleteTeam db tid).2.fcec.filter (fun f => f.team_id == tid) = [] ∧
      (fcecDeleteTeam db tid).2.members.filter (fun m => m.team_id == tid) = [] ∧
      (fcecDeleteTeam db tid).2.teams.filter (fun t => t.team_id == tid) = []) ∧
    ((cicDeleteTeam db tid).2.members.filter (fun m => m.team_id == tid) = [] ∧
      (cicDeleteTeam db tid).2.teams.filter (fun t => t.team_id == tid) = []) ∧
    (refIntegrity db → (∀ f ∈ db.fcec, f.team_id ≠ tid) →
      refIntegrity (deleteDosbimRows db tid) ∧
      refIntegrity (deleteSbcRows (deleteDosbimRows db tid) tid) ∧
      refIntegrity (deleteMemberRows (deleteSbcRows (deleteDosbimRows db tid) tid) tid) ∧
      refIntegrity (sbcDeleteTeam db tid).2) ∧
    (refIntegrity db → (∀ d ∈ db.dosbim, d.team_id ≠ tid) →
      (∀ s ∈ db.sbc, s.team_id ≠ tid) →
      refIntegrity (deleteFcecRows db tid) ∧
      refIntegrity (deleteMemberRows (deleteFcecRows db tid) tid) ∧
      refIntegrity (fcecDeleteTeam db tid).2) := by
  refine ⟨⟨?_, ?_, ?_, ?_⟩, ⟨?_, ?_, ?_⟩, ⟨?_, ?_⟩, ?_, ?_⟩
  · exact filter_eq_of_filter_ne Dosbim.team_id tid db.dosbim
  · exact filter_eq_of_filter_ne SbcRow.team_id tid db.sbc
  · exact filter_eq_of_filter_ne Member.team_id tid db.members
  · exact filter_eq_of_filter_ne Team.team_id tid db.teams
  · exact filter_eq_of_filter_ne FcecRow.team_id tid db.fcec
  · exact filter_eq_of_filter_ne Member.team_id tid db.members
  · exact filter_eq_of_filter_ne Team.team_id tid db.teams
  · exact filter_eq_of_filter_ne Member.team_id tid db.members
  · exact filter_eq_of_filter_ne Team.team_id tid db.teams
  · intro hint hfcec
    have i1 := refIntegrity_deleteDosbimRows db tid hint
    have i2 := refIntegrity_deleteSbcRows _ tid i1
    have i3 := refIntegrity_deleteMemberRows _ tid i2
    refine ⟨i1, i2, i3, ?_⟩
    show refIntegrity (deleteTeamRow
      (deleteMemberRows (deleteSbcRows (deleteDosbimRows db tid) tid) tid) tid)
    refine refIntegrity_deleteTeamRow _ tid i3 ?_ ?_ ?_ ?_
    · intro m hm2
      simpa [bne_iff_ne] using (List.mem_filter.mp hm2).2
    · intro d hd2
      simpa [bne_iff_ne] using (List.mem_filter.mp hd2).2
    · intro s hs2
      simpa [bne_iff_ne] using (List.mem_filter.mp hs2).2
    · intro f hf2
      exact hfcec f hf2
  · intro hint hdosb hsbcrow
    have j1 := refIntegrity_deleteFcecRows db tid hint
    have j2 := refIntegrity_deleteMemberRows _ tid j1
    refine ⟨j1, j2, ?_⟩
    show refIntegrity (deleteTeamRow (deleteMemberRows (deleteFcecRows db tid) tid) tid)
    refine refIntegrity_deleteTeamRow _ tid j2 ?_ ?_ ?_ ?_
    · intro m hm2
      simpa [bne_iff_ne] using (List.mem_filter.mp hm2).2
    · intro d hd2
      exact hdosb d hd2
    · intro s hs2
      exact hsbcrow s hs2
    · intro f hf2
      simpa [bne_iff_ne] using (List.mem_filter.mp hf2).2

/-- Witness for C6 at two concrete stores whose track tables are
non-empty for the deleted team: the FCEC store holds an fcec row for
team 2 and the SBC store holds dosbim and sbc rows for team 1, so the
cleanup conclusions delete real rows. -/
theorem claim_delete_order_and_cleanup_witness :
    sampleFcecStore.fcec = [⟨2, none, "T", none, "v"⟩] ∧
    (fcecDeleteTeam sampleFcecStore 2).2.fcec.filter (fun f => f.team_id == 2) = [] ∧
    refIntegrity (fcecDeleteTeam sampleFcecStore 2).2 ∧
    sampleSbcStore.dosbim = [⟨1, "D", "nip", "e", "p", none⟩] ∧
    (sbcDeleteTeam sampleSbcStore 1).2.members.filter (fun m => m.team_id == 1) = [] ∧
    refIntegrity (sbcDeleteTeam sampleSbcStore 1).2 := by
  refine ⟨by decide, ?_, ?_, by decide, ?_, ?_⟩
  · exact (claim_delete_order_and_cleanup sampleFcecStore 2).2.1.1
  · exact ((claim_delete_order_and_cleanup sampleFcecStore 2).2.2.2.2
      ⟨by decide, by decide, by decide, by decide⟩ (by decide) (by decide)).2.2
  · exact (claim_delete_order_and_cleanup sampleSbcStore 1).1.2.2.1
  · exact ((claim_delete_order_and_cleanup sampleSbcStore 1).2.2.2.1
      ⟨by decide, by decide, by decide, by decide⟩ (by decide)).2.2.2

/-- The verify row update preserves the team id, the rejected flag and
the rejection message of every row. -/
theorem verifyUpd_fields (tid : Nat) (t : Team) :
    (verifyUpd tid t).team_id = t.team_id ∧ (verifyUpd tid t).isRejected = t.isRejected ∧
      (verifyUpd tid t).rejectMessage = t.rejectMessage := by
  unfold verifyUpd
  split <;> simp

/-- The reject row update preserves the team id and the verified flag
of every row. -/
theorem rejectUpd_fields (tid : Nat) (msg : String) (t : Team) :
    (rejectUpd tid msg t).team_id = t.team_id ∧
      (rejectUpd tid msg t).isVerified = t.isVerified := by
  unfold rejectUpd
  split <;> simp

/-- The two row updates commute. -/
theorem verifyUpd_rejectUpd_comm (tid : Nat) (msg : String) (t : Team) :
    rejectUpd tid msg (verifyUpd tid t) = verifyUpd tid (rejectUpd tid msg t) := by
  unfold verifyUpd rejectUpd
  by_cases h : t.team_id = tid <;> simp [h]

/-- When a team with the id exists, the verify handler takes its
update branch. -/
theorem verifyTeam_update_of_mem (db : DB) (tid : Nat) (t0 : Team)
    (ht0 : t0 ∈ db.teams) (hid : t0.team_id = tid) :
    (verifyTeam db tid).2 = { db with teams := db.teams.map (verifyUpd tid) } := by
  have hmem : t0 ∈ db.teams.filter (fun t => t.team_id == tid) :=
    List.mem_filter.mpr ⟨ht0, by simp [hid]⟩
  have hne : db.teams.filter (fun t => t.team_id == tid) ≠ [] :=
    List.ne_nil_of_mem hmem
  unfold verifyTeam
  rw [if_neg (by simpa [List.isEmpty_iff] using hne)]

/-- C7: verifying sets only the verified flag (the rejected flag and
the rejection message of every row are untouched); rejecting sets only
the rejected flag and the message (the verified flag of every row is
untouched); the two operations commute on the store, and after both
(in either order) the team carries isVerified = true, isRejected =
true and the stored message. -/
theorem claim_verify_reject_frame_commute (db : DB) (tid : Nat) (msg : String)
    (t0 : Team) (ht0 : t0 ∈ db.teams) (hid : t0.team_id = tid) :
    ((verifyTeam db tid).2.teams.map (fun t => (t.team_id, t.isRejected, t.rejectMessage))
      = db.teams.map (fun t => (t.team_id, t.isRejected, t.rejectMessage))) ∧
    ((rejectTeam db tid msg).2.teams.map (fun t => (t.team_id, t.isVerified))
      = db.teams.map (fun t => (t.team_id, t.isVerified))) ∧
    (rejectTeam (verifyTeam db tid).2 tid msg).2
      = (verifyTeam (rejectTeam db tid msg).2 tid).2 ∧
    (∀ t ∈ (rejectTeam (verifyTeam db tid).2 tid msg).2.teams,
      t.team_id = tid →
        t.isVerified = true ∧ t.isRejected = true ∧ t.rejectMessage = some msg) := by
  have hv := verifyTeam_update_of_mem db tid t0 ht0 hid
  have ht1 : rejectUpd tid msg t0 ∈ (rejectTeam db tid msg).2.teams :=
    List.mem_map_of_mem (rejectUpd tid msg) ht0
  have hid1 : (rejectUpd tid msg t0).team_id = tid := by
    rw [(rejectUpd_fields tid msg t0).1, hid]
  have hv2 := verifyTeam_update_of_mem (rejectTeam db tid msg).2 tid _ ht1 hid1
  refine ⟨?_, ?_, ?_, ?_⟩
  · unfold verifyTeam
    split
    · rfl
    · show (db.teams.map (verifyUpd tid)).map (fun t => (t.team_id, t.isRejected, t.rejectMessage))
        = db.teams.map (fun t => (t.team_id, t.isRejected, t.rejectMessage))
      rw [List.map_map]
      refine List.map_congr_left (fun t ht => ?_)
      have h := verifyUpd_fields tid t
      simp [Function.comp, h.1, h.2.1, h.2.2]
  · show (db.teams.map (rejectUpd tid msg)).map (fun t => (t.team_id, t.isVerified))
      = db.teams.map (fun t => (t.team_id, t.isVerified))
    rw [List.map_map]
    refine List.map_congr_left (fun t ht => ?_)
    have h := rejectUpd_fields tid msg t
    simp [Function.comp, h.1, h.2]
  · rw [hv, hv2]
    show ({ db with teams := (db.teams.map (verifyUpd tid)).map (rejectUpd tid msg) } : DB)
      = { db with teams := (db.teams.map (rejectUpd tid msg)).map (verifyUpd tid) }
    rw [List.map_map, List.map_map]
    rw [List.map_congr_left (fun t ht => ?_)]
    show rejectUpd tid msg (verifyUpd tid t) = verifyUpd tid (rejectUpd tid msg t)
    exact verifyUpd_rejectUpd_comm tid msg t
  · intro t ht htid
    rw [hv] at ht
    show t.isVerified = true ∧ t.isRejected = true ∧ t.rejectMessage = some msg
    obtain ⟨a, ha, rfl⟩ := List.mem_map.mp ht
    obtain ⟨b, hb, rfl⟩ := List.mem_map.mp ha
    have hbid : b.team_id = tid := by
      have h1 := (rejectUpd_fields tid msg (verifyUpd tid b)).1
      have h2 := (verifyUpd_fields tid b).1
      rw [h1, h2] at htid
      exact htid
    simp [verifyUpd, rejectUpd, hbid]

/-- Witness for C7 at a one-team store. -/
theorem claim_verify_reject_frame_commute_witness :
    ((verifyTeam alphaSbcDB 1).2.teams.map (fun t => (t.team_id, t.isRejected, t.rejectMessage))
      = alphaSbcDB.teams.map (fun t => (t.team_id, t.isRejected, t.rejectMessage))) ∧
    ((rejectTeam alphaSbcDB 1 "msg").2.teams.map (fun t => (t.team_id, t.isVerified))
      = alphaSbcDB.teams.map (fun t => (t.team_id, t.isVerified))) ∧
    (rejectTeam (verifyTeam alphaSbcDB 1).2 1 "msg").2
      = (verifyTeam (rejectTeam alphaSbcDB 1 "msg").2 1).2 ∧
    (∀ t ∈ (rejectTeam (verifyTeam alphaSbcDB 1).2 1 "msg").2.teams,
      t.team_id = 1 →
        t.isVerified = true ∧ t.isRejected = true ∧ t.rejectMessage = some "msg") :=
  claim_verify_reject_frame_commute alphaSbcDB 1 "msg"
    ⟨1, "Alpha", "X University", none, 3, 7, none, none, false, false, none⟩
    (by decide) (by decide)
